import Mathlib

/-!
Verification development for the `arviz_base.rcparams` module: a validated,
schema-checked configuration registry with file loading and scoped overrides.

The Python source (`src/arviz_base/rcparams.py`) is shallowly embedded below:
Python values are modelled by the inductive `PyVal`, exceptions by `PyErr`,
and each validator / registry operation becomes an executable Lean function
mirroring the source line by line.  Floating point numbers are modelled by
rationals (the module only compares floats against 0 and 1 and stores decimal
literals, so this is exact for every behaviour specified here).
-/

set_option maxHeartbeats 1000000

/-- Python runtime values manipulated by the rcparams module: `None`, booleans,
ints, floats (modelled as rationals), strings, tuples, and opaque objects whose
only relevant feature is whether they expose callable `eti` / `rhat` attributes
(used by the stats-module validator). -/
inductive PyVal where
  | none
  | bool (b : Bool)
  | int (n : Int)
  | float (q : Rat)
  | str (s : String)
  | tuple (xs : List PyVal)
  | obj (etiCallable rhatCallable : Bool)
deriving Repr

/-- Python exceptions raised by the rcparams module: `ValueError`, `TypeError`
and `KeyError`, each carrying their message. -/
inductive PyErr where
  | valueError (msg : String)
  | typeError (msg : String)
  | keyError (msg : String)
deriving Repr, DecidableEq

/-! ### Python string primitives

The module only ever splits on single characters (`"#"`, `":"`, `","`, line
breaks), so the Python string operations are modelled by structurally
recursive functions on the character list underlying a `String`. -/

/-- `s.split(c)` without maxsplit: all pieces between occurrences of `c`. -/
def splitCharAux (c : Char) : List Char → List Char → List (List Char)
  | [], acc => [acc.reverse]
  | x :: xs, acc =>
    if x == c then acc.reverse :: splitCharAux c xs [] else splitCharAux c xs (x :: acc)

/-- `s.split(c)` without maxsplit, as strings. -/
def splitChar (c : Char) (s : String) : List String :=
  (splitCharAux c s.data []).map (fun cs => ⟨cs⟩)

/-- `s.split(c, 1)`: `none` when `c` does not occur (Python returns `[s]`),
otherwise the pieces before and after the first occurrence. -/
def splitFirstAux (c : Char) : List Char → List Char → Option (List Char × List Char)
  | [], _ => Option.none
  | x :: xs, acc =>
    if x == c then some (acc.reverse, xs) else splitFirstAux c xs (x :: acc)

/-- `s.split(c, 1)` as an optional pair of strings. -/
def splitFirst (c : Char) (s : String) : Option (String × String) :=
  (splitFirstAux c s.data []).map (fun p => (⟨p.1⟩, ⟨p.2⟩))

/-- `s.split(c, 1)[0]`: the text before the first occurrence of `c`, or all of
`s` when `c` does not occur. -/
def beforeChar (c : Char) (s : String) : String :=
  match splitFirst c s with
  | some p => p.1
  | Option.none => s

/-- Strip the characters satisfying `p` from both ends of a character list. -/
def stripWhile (p : Char → Bool) (cs : List Char) : List Char :=
  ((cs.dropWhile p).reverse.dropWhile p).reverse

/-- Python `s.strip()`: remove surrounding whitespace. -/
def pyTrim (s : String) : String :=
  ⟨stripWhile Char.isWhitespace s.data⟩

/-- Python `v.strip("([ ])")`: remove surrounding characters from the set
`(`, `[`, space, `]`, `)`. -/
def stripBrackets (s : String) : String :=
  ⟨stripWhile (fun c => c == '(' || c == '[' || c == ' ' || c == ']' || c == ')') s.data⟩

/-- Python `s.lower()` (ASCII case folding, all inputs here are ASCII). -/
def pyLower (s : String) : String :=
  ⟨s.data.map Char.toLower⟩

/-- Numeric value of a decimal digit string. -/
def natDigits (cs : List Char) : Nat :=
  cs.foldl (fun acc c => acc * 10 + (c.toNat - 48)) 0

/-- Python `int(s)` on a string: optional surrounding whitespace, optional
sign, then a nonempty run of decimal digits; anything else is a `ValueError`. -/
def parseIntStr (s : String) : Option Int :=
  let body := stripWhile Char.isWhitespace s.data
  let neg : Bool := body.head? == some '-'
  let ds := if body.head? == some '-' || body.head? == some '+' then body.tail else body
  if ds ≠ [] && ds.all Char.isDigit then
    some (if neg then -(Int.ofNat (natDigits ds)) else Int.ofNat (natDigits ds))
  else Option.none

/-- Python `float(s)` on a string, for the decimal forms used by this module:
optional whitespace and sign, then `digits`, `digits.digits`, `digits.` or
`.digits` (exponents, `inf` and `nan` are outside the behaviour exercised
here and are rejected). -/
def parseFloatStr (s : String) : Option Rat :=
  let body := stripWhile Char.isWhitespace s.data
  let neg : Bool := body.head? == some '-'
  let body := if body.head? == some '-' || body.head? == some '+' then body.tail else body
  match splitCharAux '.' body [] with
  | [ip] =>
    if ip ≠ [] && ip.all Char.isDigit then
      some (mkRat (if neg then -(Int.ofNat (natDigits ip)) else Int.ofNat (natDigits ip)) 1)
    else Option.none
  | [ip, fp] =>
    if (ip ≠ [] || fp ≠ []) && ip.all Char.isDigit && fp.all Char.isDigit then
      let scaled := natDigits ip * Nat.pow 10 fp.length + natDigits fp
      some (mkRat (if neg then -(Int.ofNat scaled) else Int.ofNat scaled) (Nat.pow 10 fp.length))
    else Option.none
  | _ => Option.none

/-- Truncation toward zero, as Python `int(float)`. -/
def ratTrunc (q : Rat) : Int :=
  q.num.tdiv (Int.ofNat q.den)

/-- Decimal rendering of a rational whose denominator divides a power of ten
(every float literal handled by this module), as Python `str(float)`. -/
def decimalOfRat (q : Rat) : String :=
  match (List.range 40).find? (fun k => Nat.pow 10 k % q.den == 0) with
  | Option.none => toString q.num ++ "/" ++ toString q.den
  | some k =>
    let scaled := q.num.natAbs * (Nat.pow 10 k / q.den)
    let sign := if q.num < 0 then "-" else ""
    let digits := toString scaled
    let padded :=
      (String.mk (List.replicate (k + 1 - digits.length) '0')) ++ digits
    let ip : List Char := padded.data.take (padded.data.length - k)
    let fp : List Char := padded.data.drop (padded.data.length - k)
    if k == 0 then sign ++ String.mk ip ++ ".0"
    else sign ++ String.mk ip ++ "." ++ String.mk fp

/-- Python `int(value)`: `TypeError` on `None`, tuples and objects,
`ValueError` on non-numeric strings, truncation on floats. -/
def pyInt : PyVal → Except PyErr Int
  | .bool b => .ok (if b then 1 else 0)
  | .int n => .ok n
  | .float q => .ok (ratTrunc q)
  | .str s =>
    match parseIntStr s with
    | some n => .ok n
    | Option.none => .error (.valueError ("invalid literal for int() with base 10: " ++ s))
  | _ => .error (.typeError "int() argument must be a string or a number, not NoneType or iterable")

/-- Python `float(value)`: `TypeError` on `None`, tuples and objects,
`ValueError` on non-numeric strings. -/
def pyFloat : PyVal → Except PyErr Rat
  | .bool b => .ok (if b then mkRat 1 1 else mkRat 0 1)
  | .int n => .ok (mkRat n 1)
  | .float q => .ok q
  | .str s =>
    match parseFloatStr s with
    | some q => .ok q
    | Option.none => .error (.valueError ("could not convert string to float: " ++ s))
  | _ => .error (.typeError "float() argument must be a string or a real number, not NoneType or iterable")

/-- Comma-join of a list of strings (Python `", ".join`). -/
def joinComma : List String → String
  | [] => ""
  | [s] => s
  | s :: rest => s ++ ", " ++ joinComma rest

mutual
/-- Python `str(value)`. -/
def pyStr : PyVal → String
  | .none => "None"
  | .bool true => "True"
  | .bool false => "False"
  | .int n => toString n
  | .float q => decimalOfRat q
  | .str s => s
  | .tuple xs => "(" ++ joinComma (pyReprList xs) ++ ")"
  | .obj _ _ => "<module>"

/-- Python `repr` of tuple elements (strings get quotes). -/
def pyReprList : List PyVal → List String
  | [] => []
  | .str s :: vs => ("'" ++ s ++ "'") :: pyReprList vs
  | v :: vs => pyStr v :: pyReprList vs
end

/-- Numeric interpretation of a Python value (`bool` counts as `1`/`0`),
used for Python `==` across numeric types. -/
def pyNumVal : PyVal → Option Rat
  | .bool b => some (if b then mkRat 1 1 else mkRat 0 1)
  | .int n => some (mkRat n 1)
  | .float q => some q
  | _ => Option.none

mutual
/-- Python `==` on the values manipulated by this module: numbers compare
numerically across `bool`/`int`/`float` (so `1 == True`), strings compare as
strings, tuples elementwise; values of unrelated kinds are unequal. -/
def pyEq : PyVal → PyVal → Bool
  | .str a, .str b => a == b
  | .none, .none => true
  | .obj a b, .obj c d => a == c && b == d
  | .tuple a, .tuple b => pyEqList a b
  | a, b =>
    match pyNumVal a, pyNumVal b with
    | some x, some y => x == y
    | _, _ => false

/-- Elementwise Python `==` on tuples. -/
def pyEqList : List PyVal → List PyVal → Bool
  | [], [] => true
  | a :: as, b :: bs => pyEq a b && pyEqList as bs
  | _, _ => false
end

example : pyEq (.int 1) (.bool true) = true := by decide
example : pyEq (.float 1) (.bool true) = true := by decide
example : pyEq (.int 2) (.bool true) = false := by decide
example : pyEq (.str "a") (.str "a") = true := by decide
example : parseFloatStr "0.5" = some (mkRat 1 2) := by decide
example : parseFloatStr "0.94" = some (mkRat 47 50) := by decide
example : parseIntStr " 40 " = some 40 := by decide
example : parseIntStr "3.5" = Option.none := by decide

/-! ### Validators -/

/-- `value is None or (isinstance(value, str) and value.lower() == "none")`,
the guard shared by the `allow_none` branches. -/
def isNoneLike : PyVal → Bool
  | .none => true
  | .str s => pyLower s == "none"
  | _ => false

/-- `if isinstance(value, str): value = value.lower()`. -/
def lowerIfStr : PyVal → PyVal
  | .str s => .str (pyLower s)
  | v => v

/-- `{"true": True, "false": False}.get(value, value)`. -/
def trueFalseMap (v : PyVal) : PyVal :=
  if pyEq v (.str "true") then .bool true
  else if pyEq v (.str "false") then .bool false
  else v

/-- `value is True` (Python identity test against the boolean `True`). -/
def isTheTrue : PyVal → Bool
  | .bool true => true
  | _ => false

/-- The `typeof` argument of `_make_validate_choice`: the module instantiates
it only with the builtins `str` and `int`. -/
inductive Typeof where
  | str
  | int

/-- `typeof.__name__`. -/
def typeofName : Typeof → String
  | .str => "str"
  | .int => "int"

/-- `typeof(value)` for the two instantiations used by the module. -/
def typeofCoerce : Typeof → PyVal → Except PyErr PyVal
  | .str, v => .ok (.str (pyStr v))
  | .int, v => (pyInt v).map PyVal.int

/-- The closure produced by `_make_validate_choice(accepted_values, allow_none,
typeof)`: coerce, lower-case strings, test membership (Python `in`, hence
Python `==`), map the strings `"true"`/`"false"` to booleans.  The coercion
`except` clause catches both `ValueError` and `TypeError`. -/
def validate_choice (accepted : List PyVal) (allow_none : Bool) (typeof : Typeof)
    (value : PyVal) : Except PyErr PyVal :=
  if allow_none && isNoneLike value then .ok .none
  else
    match typeofCoerce typeof value with
    | .error _ => .error (.valueError ("Could not convert to " ++ typeofName typeof))
    | .ok v0 =>
      let v := lowerIfStr v0
      if accepted.any (fun a => pyEq v a) then .ok (trueFalseMap v)
      else
        .error (.valueError (pyStr v ++ " is not one of " ++ joinComma (accepted.map pyStr)
          ++ (if allow_none then " nor None" else "")))

/-- `_validate_positive_int`: `int` coercion guarded by `except ValueError`
only, so a `TypeError` (e.g. from a `None` argument) propagates. -/
def _validate_positive_int (value : PyVal) : Except PyErr PyVal :=
  match pyInt value with
  | .error (.valueError _) => .error (.valueError "Could not convert to int")
  | .error e => .error e
  | .ok n => if n > 0 then .ok (.int n) else .error (.valueError "Only positive values are valid")

/-- `_validate_float`: `float` coercion guarded by `except ValueError` only,
so a `TypeError` (e.g. from a `None` argument) propagates. -/
def _validate_float (value : PyVal) : Except PyErr PyVal :=
  match pyFloat value with
  | .error (.valueError _) => .error (.valueError "Could not convert to float")
  | .error e => .error e
  | .ok q => .ok (.float q)

/-- `_validate_str`. -/
def _validate_str (value : PyVal) : Except PyErr PyVal :=
  .ok (.str (pyStr value))

/-- `_validate_probability`: `_validate_float` then range check on [0, 1]. -/
def _validate_probability (value : PyVal) : Except PyErr PyVal :=
  match pyFloat value with
  | .error (.valueError _) => .error (.valueError "Could not convert to float")
  | .error e => .error e
  | .ok q =>
    if q < mkRat 0 1 ∨ mkRat 1 1 < q then
      .error (.valueError "Only values between 0 and 1 are valid.")
    else .ok (.float q)

/-- `_validate_boolean`: membership in the Python set
`{True, False, "true", "false"}` (so numeric values equal to `0` or `1` pass
the membership test), returning `value is True or value == "true"`. -/
def _validate_boolean (value : PyVal) : Except PyErr PyVal :=
  let v := lowerIfStr value
  if [PyVal.bool true, PyVal.bool false, PyVal.str "true", PyVal.str "false"].any
      (fun a => pyEq v a) then
    .ok (.bool (isTheTrue v || pyEq v (.str "true")))
  else .error (.valueError "Only boolean values are valid.")

/-- The closure produced by `_add_none_to_validator(base_validator)`. -/
def validate_with_none (base : PyVal → Except PyErr PyVal) (value : PyVal) : Except PyErr PyVal :=
  if isNoneLike value then .ok .none else base value

/-- `_validate_stats_module`: strings pass unchanged; other objects pass only
when both `eti` and `rhat` attributes exist and are callable. -/
def _validate_stats_module (value : PyVal) : Except PyErr PyVal :=
  match value with
  | .str s => .ok (.str s)
  | .obj eti rhat =>
    if eti && rhat then .ok (.obj eti rhat)
    else .error
      (.valueError "Only strings or Python objects with statistical functions as methods are valid")
  | _ => .error
      (.valueError "Only strings or Python objects with statistical functions as methods are valid")

/-- Which plotting backends are importable in the running environment — the
single environment-dependent input of `_validate_backend`. -/
structure BackendAvail where
  matplotlib : Bool
  plotly : Bool
  bokeh : Bool

/-- `_validate_backend`: choice among
`{"auto", "none", "matplotlib", "bokeh", "plotly"}`; a result of `"auto"` is
resolved by probing matplotlib, then plotly, then bokeh, falling back to
`"none"`. -/
def _validate_backend (avail : BackendAvail) (value : PyVal) : Except PyErr PyVal :=
  match validate_choice [.str "auto", .str "none", .str "matplotlib", .str "bokeh", .str "plotly"]
      false .str value with
  | .error e => .error e
  | .ok v =>
    match v with
    | .str "auto" =>
      if avail.matplotlib then .ok (.str "matplotlib")
      else if avail.plotly then .ok (.str "plotly")
      else if avail.bokeh then .ok (.str "bokeh")
      else .ok (.str "none")
    | v => .ok v

/-- `tuple(scalar_validator(v) for v in value)` plus the length check of
`make_iterable_validator`. -/
def validateElems (scalar : PyVal → Except PyErr PyVal) (length : Option Nat)
    (xs : List PyVal) : Except PyErr PyVal :=
  match xs.mapM scalar with
  | .error e => .error e
  | .ok vals =>
    match length with
    | some n =>
      if vals.length = n then .ok (.tuple vals)
      else .error (.valueError ("Iterable must be of length: " ++ toString n))
    | Option.none => .ok (.tuple vals)

/-- The closure produced by `make_iterable_validator(scalar_validator, length,
allow_none, allow_auto)`: strings are comma-split (dropping whitespace-only
pieces, stripping surrounding brackets/spaces), tuples are validated
elementwise, everything else raises. -/
def validate_iterable (scalar : PyVal → Except PyErr PyVal) (length : Option Nat)
    (allow_none allow_auto : Bool) (value : PyVal) : Except PyErr PyVal :=
  if allow_none && isNoneLike value then .ok .none
  else
    match value with
    | .str s =>
      if allow_auto && pyLower s == "auto" then .ok (.str "auto")
      else
        validateElems scalar length
          (((splitChar ',' s).filter (fun v => !(pyTrim v == ""))).map
            (fun v => PyVal.str (stripBrackets v)))
    | .tuple xs => validateElems scalar length xs
    | _ => .error (.valueError "Only ordered iterable values are valid")

/-- The builtin `str`, as passed for `scalar_validator` in `_validate_dims`. -/
def pyStrFn (v : PyVal) : Except PyErr PyVal := .ok (.str (pyStr v))

/-- `_validate_float_or_none = _add_none_to_validator(_validate_float)`. -/
def _validate_float_or_none : PyVal → Except PyErr PyVal :=
  validate_with_none _validate_float

/-- `_validate_positive_int_or_none = _add_none_to_validator(_validate_positive_int)`. -/
def _validate_positive_int_or_none : PyVal → Except PyErr PyVal :=
  validate_with_none _validate_positive_int

/-- `_validate_dims = make_iterable_validator(str)`. -/
def _validate_dims : PyVal → Except PyErr PyVal :=
  validate_iterable pyStrFn Option.none false false

/-- `set(get_args(ScaleKeyword))`. -/
def scaleKeywords : List PyVal := [.str "log", .str "negative_log", .str "deviance"]

/-- The `defaultParams` schema table: ordered `(key, default, validator)`
entries.  The backend availability consumed by `_validate_backend` is threaded
as an explicit parameter. -/
def defaultParams (avail : BackendAvail) : List (String × PyVal × (PyVal → Except PyErr PyVal)) :=
  [ ("data.http_protocol", PyVal.str "https", validate_choice [.str "https", .str "http"] false .str),
    ("data.index_origin", PyVal.int 0, validate_choice [.int 0, .int 1] false .int),
    ("data.sample_dims", PyVal.tuple [.str "chain", .str "draw"], _validate_dims),
    ("data.save_warmup", PyVal.bool false, _validate_boolean),
    ("plot.backend", PyVal.str "auto", _validate_backend avail),
    ("plot.density_kind", PyVal.str "kde", validate_choice [.str "kde", .str "hist"] false .str),
    ("plot.max_subplots", PyVal.int 40, _validate_positive_int_or_none),
    ("stats.module", PyVal.str "base", _validate_stats_module),
    ("stats.ci_kind", PyVal.str "eti", validate_choice [.str "eti", .str "hdi"] false .str),
    ("stats.ci_prob", PyVal.float (mkRat 47 50), _validate_probability),
    ("stats.ic_pointwise", PyVal.bool true, _validate_boolean),
    ("stats.ic_scale", PyVal.str "log", validate_choice scaleKeywords false .str),
    ("stats.ic_compare_method", PyVal.str "stacking",
      validate_choice [.str "stacking", .str "bb-pseudo-bma", .str "pseudo-bma"] false .str),
    ("stats.point_estimate", PyVal.str "mean",
      validate_choice [.str "mean", .str "median", .str "mode"] true .str) ]

/-- The concrete environment with no plotting backend installed, used for the
concrete evaluations below. -/
def noBackends : BackendAvail := ⟨false, false, false⟩

example : _validate_boolean (.str "TRUE") = .ok (.bool true) := by rfl
example : _validate_boolean (.int 1) = .ok (.bool false) := by rfl
example : _validate_backend noBackends (.str "auto") = .ok (.str "none") := by rfl
example : _validate_backend ⟨true, true, false⟩ (.str "auto") = .ok (.str "matplotlib") := by rfl
example : _validate_dims (.str "chain, draw") = .ok (.tuple [.str "chain", .str "draw"]) := by rfl
example : _validate_probability (.float (mkRat 5 1)) =
    .error (.valueError "Only values between 0 and 1 are valid.") := by rfl
example : _validate_positive_int PyVal.none =
    .error (.typeError "int() argument must be a string or a number, not NoneType or iterable") := by
  rfl

/-! ### The registry (`RcParams`)

The underlying storage is modelled as an insertion-ordered association list
with distinct keys, exactly like the Python `dict` it embeds.  Operations that
raise inside a method that does not mutate first are modelled as returning the
unchanged registry together with the raised exception. -/

/-- Python `dict` assignment `d[k] = v`: overwrite in place when the key is
present (keeping its position), otherwise append. -/
def dictInsert : List (String × PyVal) → String → PyVal → List (String × PyVal)
  | [], k, v => [(k, v)]
  | kv :: rest, k, v =>
    if kv.1 == k then (k, v) :: rest else kv :: dictInsert rest k v

/-- Python `dict` lookup `d[k]` (first — and with distinct keys, only —
binding of `k`). -/
def lookupPairs : List (String × PyVal) → String → Option PyVal
  | [], _ => Option.none
  | kv :: rest, k => if kv.1 == k then some kv.2 else lookupPairs rest k

/-- Python `k in d`. -/
def hasKey (st : List (String × PyVal)) (k : String) : Bool :=
  st.any (fun kv => kv.1 == k)

/-- The `RcParams` mapping: a validating dict.  Only `_underlying_storage` is
state; the `validate` table is a class attribute (a single table shared by
every instance), modelled by the standalone function `RcParams.validate`. -/
structure RcParams where
  storage : List (String × PyVal)
deriving Repr

/-- The class attribute
`validate = {key: validate_fun for key, (_, validate_fun) in defaultParams.items()}`,
with a `KeyError` modelled as `Option.none`. -/
def RcParams.validate (avail : BackendAvail) (key : String) :
    Option (PyVal → Except PyErr PyVal) :=
  ((defaultParams avail).find? (fun t => t.1 == key)).map (fun t => t.2.2)

/-- `RcParams.__setitem__`: look up the key's validator (`KeyError` when the
key is not in the schema, re-raised with a message), run it (`ValueError`
re-raised with the key name; any other exception propagates unchanged), and
only on success store the canonical value. -/
def RcParams.setItem (avail : BackendAvail) (self : RcParams) (key : String) (val : PyVal) :
    RcParams × Option PyErr :=
  match RcParams.validate avail key with
  | Option.none =>
    (self, some (.keyError (key ++ " is not a valid rc parameter (see rcParams.keys() for a list of valid parameters)")))
  | some f =>
    match f val with
    | .error (.valueError m) => (self, some (.valueError ("Key " ++ key ++ ": " ++ m)))
    | .error e => (self, some e)
    | .ok cval => (⟨dictInsert self.storage key cval⟩, Option.none)

/-- `MutableMapping.update` over a sequence of pairs: apply `__setitem__` per
pair; the first exception aborts the remaining assignments (it propagates),
leaving the assignments already made in place. -/
def RcParams.updatePairs (avail : BackendAvail) (self : RcParams) :
    List (String × PyVal) → RcParams × Option PyErr
  | [] => (self, Option.none)
  | (k, v) :: rest =>
    match RcParams.setItem avail self k v with
    | (s, Option.none) => RcParams.updatePairs avail s rest
    | (s, some e) => (s, some e)

/-- `RcParams.__getitem__`. -/
def RcParams.lookup (self : RcParams) (key : String) : Option PyVal :=
  lookupPairs self.storage key

/-- `RcParams.copy`: a plain snapshot of the storage. -/
def RcParams.copy (self : RcParams) : List (String × PyVal) :=
  self.storage

/-- `RcParams.__delitem__`: always raises `TypeError`, never mutates. -/
def RcParams.delItem (self : RcParams) (key : String) : RcParams × Option PyErr :=
  (self, some (.typeError "RcParams keys cannot be deleted"))

/-- `RcParams.clear`: always raises `TypeError`, never mutates. -/
def RcParams.clearAll (self : RcParams) : RcParams × Option PyErr :=
  (self, some (.typeError "RcParams keys cannot be deleted"))

/-- `RcParams.pop`: always raises `TypeError`, never mutates. -/
def RcParams.pop (self : RcParams) (key : String) (default : PyVal) : RcParams × Option PyErr :=
  (self, some (.typeError "RcParams keys cannot be deleted. Use .get(key) of RcParams[key] to check values"))

/-- `RcParams.popitem`: always raises `TypeError`, never mutates. -/
def RcParams.popitem (self : RcParams) : RcParams × Option PyErr :=
  (self, some (.typeError "RcParams keys cannot be deleted. Use .get(key) of RcParams[key] to check values"))

/-- `RcParams.setdefault`: always raises `TypeError`, never mutates. -/
def RcParams.setdefault (self : RcParams) (key : String) (default : PyVal) :
    RcParams × Option PyErr :=
  (self, some (.typeError "Defaults in RcParams are handled on object initialization during libraryimport. Use arvizrc file instead."))

/-- Lexicographic code-point comparison of character lists (Python `<` on
strings). -/
def charsLt : List Char → List Char → Bool
  | _, [] => false
  | [], _ => true
  | x :: xs, y :: ys =>
    if x.toNat < y.toNat then true
    else if y.toNat < x.toNat then false
    else charsLt xs ys

/-- Python `<` on strings. -/
def strLt (a b : String) : Bool := charsLt a.data b.data

/-- Stable insertion into a key-sorted pair list (Python `sorted` is stable). -/
def insertSorted (kv : String × PyVal) : List (String × PyVal) → List (String × PyVal)
  | [] => [kv]
  | x :: xs => if strLt kv.1 x.1 then kv :: x :: xs else x :: insertSorted kv xs

/-- `sorted(items)` by key, as used by `RcParams.__iter__` / `__str__` and by
`MutableMapping` iteration over an `RcParams` argument. -/
def sortPairs : List (String × PyVal) → List (String × PyVal)
  | [] => []
  | x :: xs => insertSorted x (sortPairs xs)

/-- `re.search(pattern, key)` for the literal (regex-metacharacter-free)
patterns this development exercises: substring containment. -/
def reSearch (pattern key : String) : Bool :=
  key.data.tails.any (fun t => pattern.data.isPrefixOf t)

/-- `RcParams.find_all(pattern)`: a NEW `RcParams` built (hence re-validated)
from the sorted items whose key matches the pattern. -/
def RcParams.find_all (avail : BackendAvail) (self : RcParams) (pattern : String) :
    RcParams × Option PyErr :=
  RcParams.updatePairs avail ⟨[]⟩
    ((sortPairs self.storage).filter (fun kv => reSearch pattern kv.1))

/-! ### Config-file loading (`read_rcfile`) -/

/-- The warnings `read_rcfile` sends to the logger: a malformed (colon-free)
line, or a duplicated key. -/
inductive LogMsg where
  | illegal (lineNo : Nat) (line fname : String)
  | duplicate (fname : String) (lineNo : Nat)
deriving Repr, DecidableEq

/-- Whether a log message is the duplicate-key warning. -/
def isDupMsg : LogMsg → Bool
  | .duplicate _ _ => true
  | _ => false

/-- `line.split("#", 1)[0].strip()`: drop the comment, strip whitespace. -/
def stripLine (line : String) : String :=
  pyTrim (beforeChar '#' line)

/-- The per-line loop body of `read_rcfile`, processing the remaining lines:
skip blank/comment lines; log and skip lines without a `:`; otherwise split at
the FIRST `:`, trim key and value, warn on duplicate keys, and assign through
`RcParams.__setitem__` (a `ValueError` is re-raised with line context; any
other exception — notably the unknown-key `KeyError` — propagates). -/
def readLines (avail : BackendAvail) (fname : String) :
    Nat → List String → RcParams → List LogMsg → Except PyErr (RcParams × List LogMsg)
  | _, [], config, warns => .ok (config, warns)
  | lineNo, line :: rest, config, warns =>
    if stripLine line = "" then readLines avail fname (lineNo + 1) rest config warns
    else
      match splitFirst ':' (stripLine line) with
      | Option.none =>
        readLines avail fname (lineNo + 1) rest config (warns ++ [LogMsg.illegal lineNo line fname])
      | some kv =>
        match RcParams.setItem avail config (pyTrim kv.1) (PyVal.str (pyTrim kv.2)) with
        | (config2, Option.none) =>
          readLines avail fname (lineNo + 1) rest config2
            (if hasKey config.storage (pyTrim kv.1) then warns ++ [LogMsg.duplicate fname lineNo] else warns)
        | (_, some (PyErr.valueError m)) =>
          .error (.valueError ("Bad val " ++ pyTrim kv.2 ++ " on line #" ++ toString lineNo
            ++ " in file " ++ fname ++ ": " ++ m))
        | (_, some e) => .error e

/-- `read_rcfile(fname)` over the file's text `contents`: a registry holding
only the keys present in the file, together with the logged warnings. -/
def read_rcfile (avail : BackendAvail) (fname contents : String) :
    Except PyErr (RcParams × List LogMsg) :=
  readLines avail fname 1 (splitChar '\n' contents) ⟨[]⟩ []

/-! ### Registry construction and the scoped-override context -/

/-- The `(key, default)` seed pairs of `rc_params`. -/
def defaultSeed (avail : BackendAvail) : List (String × PyVal) :=
  (defaultParams avail).map (fun t => (t.1, t.2.1))

/-- `rc_params(ignore_files)`: seed a registry with every schema default, then
merge the located config file (if any) on top.  The optional file is passed as
`(fname, contents)`; `Option.none` plays both the `ignore_files=True` role and
the no-file-found case. -/
def rc_params (avail : BackendAvail) (rcfile : Option (String × String)) :
    Except PyErr RcParams :=
  match RcParams.updatePairs avail ⟨[]⟩ (defaultSeed avail) with
  | (_, some e) => .error e
  | (defaults, Option.none) =>
    match rcfile with
    | Option.none => .ok defaults
    | some f =>
      match read_rcfile avail f.1 f.2 with
      | .error e => .error e
      | .ok fileRc =>
        match RcParams.updatePairs avail defaults (sortPairs fileRc.1.storage) with
        | (_, some e) => .error e
        | (merged, Option.none) => .ok merged

/-- The registry seeded from defaults alone (`rc_params(ignore_files=True)`),
i.e. the state of the shared `rcParams` instance when no `arvizrc` file is
found. -/
def rcDefault (avail : BackendAvail) : RcParams :=
  (RcParams.updatePairs avail ⟨[]⟩ (defaultSeed avail)).1

/-- The state of an `rc_context` object: `self._orig`, the `copy()` of the
shared registry taken in `__init__`. -/
structure RcContext where
  orig : List (String × PyVal)

/-- `rc_context.__init__(rc, fname)` acting on the shared registry `shared`:
snapshot it, merge the file registry (sorted-key iteration of an `RcParams`
argument), then merge the explicit `rc` mapping on top.  Returns the context
object and the updated shared registry, or the exception raised. -/
def rcContextInit (avail : BackendAvail) (shared : RcParams)
    (rc : Option (List (String × PyVal))) (rcfile : Option (String × String)) :
    Except PyErr (RcContext × RcParams) :=
  let orig := RcParams.copy shared
  match rcfile with
  | some f =>
    match read_rcfile avail f.1 f.2 with
    | .error e => .error e
    | .ok fileRc =>
      match RcParams.updatePairs avail shared (sortPairs fileRc.1.storage) with
      | (_, some e) => .error e
      | (shared2, Option.none) =>
        match rc with
        | some pairs =>
          match RcParams.updatePairs avail shared2 pairs with
          | (_, some e) => .error e
          | (shared3, Option.none) => .ok (⟨orig⟩, shared3)
        | Option.none => .ok (⟨orig⟩, shared2)
  | Option.none =>
    match rc with
    | some pairs =>
      match RcParams.updatePairs avail shared pairs with
      | (_, some e) => .error e
      | (shared2, Option.none) => .ok (⟨orig⟩, shared2)
    | Option.none => .ok (⟨orig⟩, shared)

/-- `rc_context.__enter__`: returns `self`; the shared registry is untouched. -/
def rcContextEnter (ctx : RcContext) (shared : RcParams) : RcContext × RcParams :=
  (ctx, shared)

/-- `rc_context.__exit__`: `rcParams.update(self._orig)`, run unconditionally
(also when the guarded block raised — the shared registry passed here is
whatever state the block left behind). -/
def rcContextExit (avail : BackendAvail) (ctx : RcContext) (shared : RcParams) :
    RcParams × Option PyErr :=
  RcParams.updatePairs avail shared ctx.orig

example : (rcDefault noBackends).lookup "plot.backend" = some (.str "none") := by rfl
example : (rcDefault noBackends).lookup "stats.ci_prob" = some (.float (mkRat 47 50)) := by rfl
example : (rcDefault noBackends).storage.length = 14 := by rfl
example : read_rcfile noBackends "arvizrc" "stats.ci_prob: 0.5\nstats.ci_prob: 0.9\n" =
    .ok (⟨[("stats.ci_prob", .float (mkRat 9 10))]⟩, [LogMsg.duplicate "arvizrc" 2]) := by rfl
example : read_rcfile noBackends "arvizrc" "data.sample_dims: a:b,c" =
    .ok (⟨[("data.sample_dims", .tuple [.str "a:b", .str "c"])]⟩, []) := by rfl
example : reSearch "plot" "plot.max_subplots" = true := by rfl
example : reSearch "plot" "stats.ci_prob" = false := by rfl

/-! ### Association-list lemmas -/

/-- `optOr a b`: `a` unless it is `none`, then `b`. -/
def optOr (a b : Option PyVal) : Option PyVal :=
  match a with
  | some v => some v
  | Option.none => b

/-- Value of the LAST binding of `k` in a pair list (last assignment wins). -/
def lastValP : List (String × PyVal) → String → Option PyVal
  | [], _ => Option.none
  | kv :: rest, k =>
    match lastValP rest k with
    | some v => some v
    | Option.none => if kv.1 == k then some kv.2 else Option.none

theorem lookupPairs_dictInsert_self (st : List (String × PyVal)) (k : String) (v : PyVal) :
    lookupPairs (dictInsert st k v) k = some v := by
  induction st with
  | nil => simp [dictInsert, lookupPairs]
  | cons kv rest ih =>
    by_cases h : kv.1 = k
    · simp [dictInsert, lookupPairs, h]
    · simp [dictInsert, lookupPairs, h, ih]

theorem lookupPairs_dictInsert_other (st : List (String × PyVal)) (k k' : String) (v : PyVal)
    (h : k' ≠ k) : lookupPairs (dictInsert st k v) k' = lookupPairs st k' := by
  have hne : ¬(k = k') := fun hh => h hh.symm
  induction st with
  | nil => simp [dictInsert, lookupPairs, hne]
  | cons kv rest ih =>
    by_cases hk : kv.1 = k
    · subst hk
      simp [dictInsert, lookupPairs, hne]
    · simp [dictInsert, lookupPairs, hk, ih]

theorem hasKey_dictInsert (st : List (String × PyVal)) (k k' : String) (v : PyVal) :
    hasKey (dictInsert st k v) k' = (k == k' || hasKey st k') := by
  induction st with
  | nil => simp [dictInsert, hasKey]
  | cons kv rest ih =>
    by_cases hk : kv.1 = k
    · subst hk
      cases hc : (kv.1 == k') <;> simp [dictInsert, hasKey, List.any_cons, hc]
    · simp only [dictInsert, hasKey, List.any_cons] at ih ⊢
      simp [hk, ih, Bool.or_left_comm]

theorem lastValP_eq_none_of_not_mem (st : List (String × PyVal)) (k : String)
    (h : ∀ kv ∈ st, kv.1 ≠ k) : lastValP st k = Option.none := by
  induction st with
  | nil => rfl
  | cons kv rest ih =>
    have h1 := h kv (List.mem_cons_self kv rest)
    have h2 := ih (fun kv' hm => h kv' (List.mem_cons_of_mem kv hm))
    simp [lastValP, h1, h2]

theorem lastValP_eq_lookupPairs (st : List (String × PyVal)) (k : String)
    (hnd : (st.map Prod.fst).Nodup) : lastValP st k = lookupPairs st k := by
  induction st with
  | nil => rfl
  | cons kv rest ih =>
    rw [List.map_cons, List.nodup_cons] at hnd
    by_cases hk : kv.1 = k
    · have : ∀ kv' ∈ rest, kv'.1 ≠ k := by
        intro kv' hm he
        exact hnd.1 (hk ▸ he ▸ List.mem_map_of_mem Prod.fst hm)
      simp [lastValP, lookupPairs, hk, lastValP_eq_none_of_not_mem rest k this]
    · rw [show lookupPairs (kv :: rest) k = lookupPairs rest k from by simp [lookupPairs, hk]]
      rw [← ih hnd.2]
      cases hl : lastValP rest k with
      | some v => simp [lastValP, hl]
      | none => simp [lastValP, hl, hk]

/-- Specification of `MutableMapping.update` when every pair re-validates to
itself: no exception is raised and the final lookup is "last assignment wins,
falling back to the pre-update value". -/
theorem updatePairs_spec (avail : BackendAvail) (pairs : List (String × PyVal)) (s : RcParams)
    (hall : ∀ kv ∈ pairs, ∃ f, RcParams.validate avail kv.1 = some f ∧ f kv.2 = .ok kv.2) :
    (RcParams.updatePairs avail s pairs).2 = Option.none ∧
      ∀ k, ((RcParams.updatePairs avail s pairs).1).lookup k
        = optOr (lastValP pairs k) (s.lookup k) := by
  induction pairs generalizing s with
  | nil => simp [RcParams.updatePairs, lastValP, optOr]
  | cons kv rest ih =>
    obtain ⟨k0, v0⟩ := kv
    obtain ⟨f, hf, hv⟩ := hall (k0, v0) (List.mem_cons_self _ _)
    have hset : RcParams.setItem avail s k0 v0 = (⟨dictInsert s.storage k0 v0⟩, Option.none) := by
      simp [RcParams.setItem, hf, hv]
    have hstep : RcParams.updatePairs avail s ((k0, v0) :: rest)
        = RcParams.updatePairs avail ⟨dictInsert s.storage k0 v0⟩ rest := by
      simp [RcParams.updatePairs, hset]
    obtain ⟨h1, h2⟩ := ih ⟨dictInsert s.storage k0 v0⟩
      (fun kv' hm => hall kv' (List.mem_cons_of_mem _ hm))
    refine ⟨by rw [hstep]; exact h1, ?_⟩
    intro k
    rw [hstep, h2 k]
    cases hl : lastValP rest k with
    | some v => simp [lastValP, hl, optOr]
    | none =>
      by_cases hk : k0 = k
      · subst hk
        simp [lastValP, hl, optOr, RcParams.lookup, lookupPairs_dictInsert_self]
      · simp [lastValP, hl, optOr, RcParams.lookup,
          lookupPairs_dictInsert_other s.storage k0 k v0 (fun hh => hk hh.symm), hk]

/-! ### Pure parse of a config file (no validation), for specifying
`read_rcfile` -/

/-- The `(key, raw value)` pairs of the well-formed lines (non-blank after
comment stripping and containing a colon), in file order. -/
def parsedPairs : List String → List (String × String)
  | [] => []
  | line :: rest =>
    if stripLine line = "" then parsedPairs rest
    else
      match splitFirst ':' (stripLine line) with
      | Option.none => parsedPairs rest
      | some kv => (pyTrim kv.1, pyTrim kv.2) :: parsedPairs rest

/-- Raw value of the LAST well-formed occurrence of a key. -/
def lastRawP : List (String × String) → String → Option String
  | [], _ => Option.none
  | kv :: rest, key =>
    match lastRawP rest key with
    | some r => some r
    | Option.none => if kv.1 == key then some kv.2 else Option.none

/-- Number of occurrences whose key was already seen (counting from the seed
key list `seen`): the number of duplicate-key warnings a successful load
emits. -/
def dupCount : List String → List (String × String) → Nat
  | _, [] => 0
  | seen, (k, _) :: rest =>
    (if seen.any (fun s => s == k) then 1 else 0) + dupCount (k :: seen) rest

theorem dupCount_congr (seen1 seen2 : List String)
    (h : ∀ x, seen1.any (fun s => s == x) = seen2.any (fun s => s == x)) :
    ∀ pairs, dupCount seen1 pairs = dupCount seen2 pairs := by
  intro pairs
  induction pairs generalizing seen1 seen2 with
  | nil => rfl
  | cons kv rest ih =>
    obtain ⟨k, v⟩ := kv
    simp only [dupCount, h k]
    rw [ih (k :: seen1) (k :: seen2) (fun x => by simp [List.any_cons, h x])]

theorem hasKey_eq_any_keys (st : List (String × PyVal)) (x : String) :
    hasKey st x = (st.map Prod.fst).any (fun s => s == x) := by
  induction st with
  | nil => rfl
  | cons kv rest ih =>
    simp only [hasKey, List.any_cons, List.map_cons] at ih ⊢
    rw [ih]

/-- Specification of the `read_rcfile` line loop on a successful run:
(1) keys with no well-formed occurrence keep their pre-existing binding;
(2) each key that occurs ends up bound to the validator's output on the raw
value of its last occurrence; (3) one duplicate-key warning is logged per
occurrence whose key was already present. -/
theorem readLines_ok_spec (avail : BackendAvail) (fname : String) (lines : List String) :
    ∀ (n : Nat) (c0 : RcParams) (w0 : List LogMsg) (config : RcParams) (warns : List LogMsg),
    readLines avail fname n lines c0 w0 = .ok (config, warns) →
    ((∀ k, lastRawP (parsedPairs lines) k = Option.none → config.lookup k = c0.lookup k) ∧
     (∀ k raw, lastRawP (parsedPairs lines) k = some raw →
        ∃ f cv, RcParams.validate avail k = some f ∧ f (.str raw) = .ok cv ∧
          config.lookup k = some cv) ∧
     warns.countP isDupMsg
       = w0.countP isDupMsg + dupCount (c0.storage.map Prod.fst) (parsedPairs lines)) := by
  induction lines with
  | nil =>
    intro n c0 w0 config warns h
    simp only [readLines] at h
    obtain ⟨h1, h2⟩ := Prod.mk.injEq .. ▸ (Except.ok.inj h)
    subst h1
    subst h2
    refine ⟨fun k _ => rfl, fun k raw hr => by simp [parsedPairs, lastRawP] at hr, ?_⟩
    simp [parsedPairs, dupCount]
  | cons line rest ih =>
    intro n c0 w0 config warns h
    by_cases hs : stripLine line = ""
    · simp only [readLines, hs, if_true] at h
      have := ih (n + 1) c0 w0 config warns h
      simpa [parsedPairs, hs] using this
    · cases hsp : splitFirst ':' (stripLine line) with
      | none =>
        simp only [readLines, hs, if_false, hsp] at h
        obtain ⟨ih1, ih2, ih3⟩ := ih (n + 1) c0 (w0 ++ [LogMsg.illegal n line fname]) config warns h
        refine ⟨?_, ?_, ?_⟩
        · intro k hk
          exact ih1 k (by simpa [parsedPairs, hs, hsp] using hk)
        · intro k raw hk
          exact ih2 k raw (by simpa [parsedPairs, hs, hsp] using hk)
        · rw [ih3]
          simp [parsedPairs, hs, hsp, List.countP_append, isDupMsg]
      | some kv =>
        cases hval : RcParams.validate avail (pyTrim kv.1) with
        | none =>
          simp only [readLines, hs, if_false, hsp, RcParams.setItem, hval] at h
          exact Except.noConfusion h
        | some f =>
          cases hfv : f (PyVal.str (pyTrim kv.2)) with
          | error e =>
            cases e <;> simp only [readLines, hs, if_false, hsp, RcParams.setItem, hval, hfv] at h
              <;> exact Except.noConfusion h
          | ok cv =>
            simp only [readLines, hs, if_false, hsp, RcParams.setItem, hval, hfv] at h
            obtain ⟨ih1, ih2, ih3⟩ := ih (n + 1) ⟨dictInsert c0.storage (pyTrim kv.1) cv⟩
              (if hasKey c0.storage (pyTrim kv.1) then w0 ++ [LogMsg.duplicate fname n] else w0)
              config warns h
            have hpp : parsedPairs (line :: rest)
                = (pyTrim kv.1, pyTrim kv.2) :: parsedPairs rest := by
              simp [parsedPairs, hs, hsp]
            refine ⟨?_, ?_, ?_⟩
            · intro k hk
              rw [hpp] at hk
              have hrest : lastRawP (parsedPairs rest) k = Option.none := by
                cases hl : lastRawP (parsedPairs rest) k with
                | none => rfl
                | some r => rw [lastRawP, hl] at hk; exact absurd hk (by simp)
              have hkey : ¬(pyTrim kv.1 = k) := by
                intro he
                rw [lastRawP, hrest] at hk
                simp [he] at hk
              rw [ih1 k hrest]
              simp only [RcParams.lookup]
              exact lookupPairs_dictInsert_other c0.storage (pyTrim kv.1) k cv
                (fun hh => hkey hh.symm)
            · intro k raw hk
              rw [hpp] at hk
              cases hl : lastRawP (parsedPairs rest) k with
              | some r =>
                rw [lastRawP, hl] at hk
                exact ih2 k raw (by rw [hl]; exact hk)
              | none =>
                rw [lastRawP, hl] at hk
                by_cases hkey : pyTrim kv.1 = k
                · have hraw : raw = pyTrim kv.2 := by
                    simp [hkey] at hk
                    exact hk.symm
                  refine ⟨f, cv, hkey ▸ hval, ?_, ?_⟩
                  · rw [hraw]; exact hfv
                  · rw [ih1 k hl]
                    simp only [RcParams.lookup]
                    rw [← hkey]
                    exact lookupPairs_dictInsert_self c0.storage (pyTrim kv.1) cv
                · simp [hkey] at hk
            · rw [ih3, hpp]
              have hcongr : dupCount ((RcParams.mk (dictInsert c0.storage (pyTrim kv.1) cv)).storage.map Prod.fst) (parsedPairs rest)
                  = dupCount ((pyTrim kv.1) :: c0.storage.map Prod.fst) (parsedPairs rest) := by
                refine dupCount_congr _ _ (fun x => ?_) _
                rw [← hasKey_eq_any_keys]
                simp only []
                rw [hasKey_dictInsert, List.any_cons, hasKey_eq_any_keys]
              rw [hcongr]
              simp only [dupCount]
              rw [← hasKey_eq_any_keys]
              cases hdup : hasKey c0.storage (pyTrim kv.1) <;>
                simp [List.countP_append, isDupMsg, Nat.add_assoc, Nat.add_comm]

/-! ### Claim theorems -/

/-- The backend validator accepts the string `"auto"` in every environment
(returning the resolved backend). -/
theorem backend_auto_ok (avail : BackendAvail) :
    ∃ r, _validate_backend avail (PyVal.str "auto") = .ok r := by
  obtain ⟨m, p, b⟩ := avail
  cases m <;> cases p <;> cases b <;> exact ⟨_, rfl⟩

/-- C1 (amended): for every schema entry other than `"plot.backend"`, the
validator maps the default value to itself; for `"plot.backend"` the validator
ACCEPTS the default `"auto"` (no error) but returns the resolved backend
rather than `"auto"` itself. -/
theorem C1_defaults_validate (avail : BackendAvail) (k : String) (d : PyVal)
    (f : PyVal → Except PyErr PyVal) (h : (k, d, f) ∈ defaultParams avail) :
    (k ≠ "plot.backend" → f d = .ok d) ∧ (k = "plot.backend" → ∃ r, f d = .ok r) := by
  simp only [defaultParams, List.mem_cons, List.not_mem_nil, or_false, Prod.mk.injEq] at h
  rcases h with h | h | h | h | h | h | h | h | h | h | h | h | h | h
  all_goals obtain ⟨rfl, rfl, rfl⟩ := h
  all_goals first
    | exact ⟨fun _ => rfl, fun he => absurd he (by decide)⟩
    | exact ⟨fun hne => absurd rfl hne, fun _ => backend_auto_ok avail⟩

/-- C1 witness: the boolean entry `"data.save_warmup"` validates its default
to itself. -/
theorem C1_defaults_validate_witness :
    _validate_boolean (PyVal.bool false) = .ok (PyVal.bool false) :=
  (C1_defaults_validate noBackends "data.save_warmup" (PyVal.bool false) _validate_boolean
    (List.Mem.tail _ (List.Mem.tail _ (List.Mem.tail _ (List.Mem.head _))))).1 (by decide)

/-- C1 counterexample: `"plot.backend"` is a schema entry with default
`"auto"`, and its validator applied to `"auto"` returns `"none"` (with no
backend installed) — not the default unchanged. -/
theorem C1_counterexample :
    ("plot.backend", PyVal.str "auto", _validate_backend noBackends) ∈ defaultParams noBackends
      ∧ _validate_backend noBackends (PyVal.str "auto") = .ok (PyVal.str "none")
      ∧ (Except.ok (PyVal.str "none") : Except PyErr PyVal) ≠ .ok (PyVal.str "auto") := by
  refine ⟨?_, rfl, ?_⟩
  · exact List.Mem.tail _ (List.Mem.tail _ (List.Mem.tail _ (List.Mem.tail _ (List.Mem.head _))))
  · intro hcontr
    exact absurd (PyVal.str.inj (Except.ok.inj hcontr)) (by decide)

/-- C2: code evaluation at the inputs the claim calls out — the boolean
validator does NOT fail on `1`, `0` or `1.0` (Python `1 in {True, False, ...}`
holds, while `1 is True` and `1 == "true"` do not), so it accepts them and
returns `False`; genuine booleans and the strings are handled as claimed, and
other inputs do raise. -/
theorem C2_boolean_accepts_numbers :
    _validate_boolean (PyVal.int 1) = .ok (PyVal.bool false)
      ∧ _validate_boolean (PyVal.int 0) = .ok (PyVal.bool false)
      ∧ _validate_boolean (PyVal.float (mkRat 1 1)) = .ok (PyVal.bool false)
      ∧ _validate_boolean (PyVal.bool true) = .ok (PyVal.bool true)
      ∧ _validate_boolean (PyVal.bool false) = .ok (PyVal.bool false)
      ∧ _validate_boolean (PyVal.str "TRUE") = .ok (PyVal.bool true)
      ∧ _validate_boolean (PyVal.str "False") = .ok (PyVal.bool false)
      ∧ _validate_boolean (PyVal.str "yes")
          = .error (.valueError "Only boolean values are valid.")
      ∧ _validate_boolean (PyVal.int 2)
          = .error (.valueError "Only boolean values are valid.") :=
  ⟨rfl, rfl, rfl, rfl, rfl, rfl, rfl, rfl, rfl⟩

/-- C3 (amended): a non-blank line WITHOUT any colon is logged as illegal and
skipped — processing continues on the remaining lines with the registry
unchanged.  (Lines with two or more colons are split at the first colon and
processed normally; see the counterexample.) -/
theorem C3_colonless_skipped (avail : BackendAvail) (fname : String) (lineNo : Nat)
    (line : String) (rest : List String) (config : RcParams) (warns : List LogMsg)
    (h1 : stripLine line ≠ "") (h2 : splitFirst ':' (stripLine line) = Option.none) :
    readLines avail fname lineNo (line :: rest) config warns
      = readLines avail fname (lineNo + 1) rest config
          (warns ++ [LogMsg.illegal lineNo line fname]) := by
  simp [readLines, h1, h2]

/-- C3 witness: a colon-free line is skipped with an illegal-line warning. -/
theorem C3_colonless_skipped_witness :
    readLines noBackends "arvizrc" 1 ["bad line no colon"] ⟨[]⟩ []
      = readLines noBackends "arvizrc" 2 [] ⟨[]⟩
          [LogMsg.illegal 1 "bad line no colon" "arvizrc"] :=
  C3_colonless_skipped noBackends "arvizrc" 1 "bad line no colon" [] ⟨[]⟩ []
    (by decide) rfl

/-- C3 counterexample: the line `"data.sample_dims: a:b,c"` contains TWO
colons, yet it is NOT logged-and-skipped: `split(":", 1)` only detects
colon-free lines, so the line is split at the first colon and stored (no
warning logged). -/
theorem C3_counterexample :
    read_rcfile noBackends "arvizrc" "data.sample_dims: a:b,c"
      = .ok (⟨[("data.sample_dims", PyVal.tuple [PyVal.str "a:b", PyVal.str "c"])]⟩, []) := rfl

/-- C4 (amended): a validator failure that is a `ValueError` is wrapped by
`__setitem__` into a `ValueError` naming the offending key; but a `TypeError`
(raised e.g. by `int(None)` / `float(None)` inside the positive-int and float
validators, whose `except` clause only catches `ValueError`) escapes
`__setitem__` unwrapped. -/
theorem C4_validator_failures (avail : BackendAvail) (s : RcParams) (key : String)
    (val : PyVal) (f : PyVal → Except PyErr PyVal)
    (hf : RcParams.validate avail key = some f) :
    (∀ m, f val = .error (.valueError m) →
        RcParams.setItem avail s key val
          = (s, some (.valueError ("Key " ++ key ++ ": " ++ m))))
    ∧ (∀ m, f val = .error (.typeError m) →
        RcParams.setItem avail s key val = (s, some (.typeError m)))
    ∧ _validate_positive_int PyVal.none
        = .error (.typeError "int() argument must be a string or a number, not NoneType or iterable")
    ∧ _validate_float PyVal.none
        = .error (.typeError "float() argument must be a string or a real number, not NoneType or iterable") := by
  refine ⟨?_, ?_, rfl, rfl⟩ <;> intro m hv <;> simp [RcParams.setItem, hf, hv]

/-- C4 witness: a non-numeric string for `"stats.ci_prob"` is wrapped with the
key name; a `None` value for the same key escapes as an unwrapped `TypeError`. -/
theorem C4_validator_failures_witness :
    RcParams.setItem noBackends ⟨[]⟩ "stats.ci_prob" (PyVal.str "abc")
        = (⟨[]⟩, some (.valueError "Key stats.ci_prob: Could not convert to float"))
    ∧ (RcParams.setItem noBackends ⟨[]⟩ "stats.ci_prob" PyVal.none).2
        = some (.typeError "float() argument must be a string or a real number, not NoneType or iterable") :=
  ⟨(C4_validator_failures noBackends ⟨[]⟩ "stats.ci_prob" (PyVal.str "abc")
      _validate_probability rfl).1 "Could not convert to float" rfl, rfl⟩

/-- C4 counterexample: with a `None` input the positive-int validator raises a
`TypeError` (not a `ValueError`-equivalent), and `__setitem__` lets it escape
unwrapped — the error does not name the key. -/
theorem C4_counterexample :
    _validate_positive_int PyVal.none
        = .error (.typeError "int() argument must be a string or a number, not NoneType or iterable")
      ∧ (RcParams.setItem noBackends ⟨[]⟩ "stats.ci_prob" PyVal.none)
        = (⟨[]⟩, some (.typeError "float() argument must be a string or a real number, not NoneType or iterable")) :=
  ⟨rfl, rfl⟩

/-- C6: setting a key absent from the schema fails with the unknown-key
`KeyError` and returns the registry with its stored entries untouched. -/
theorem C6_unknown_key_set_fails (avail : BackendAvail) (s : RcParams) (key : String)
    (val : PyVal) (h : RcParams.validate avail key = Option.none) :
    RcParams.setItem avail s key val
      = (s, some (.keyError (key ++ " is not a valid rc parameter (see rcParams.keys() for a list of valid parameters)"))) := by
  simp [RcParams.setItem, h]

/-- C6 witness: the unknown key `"plot.backend_kwargs"` on the fully-seeded
default registry. -/
theorem C6_unknown_key_set_fails_witness :
    RcParams.setItem noBackends (rcDefault noBackends) "plot.backend_kwargs" PyVal.none
      = (rcDefault noBackends, some (.keyError "plot.backend_kwargs is not a valid rc parameter (see rcParams.keys() for a list of valid parameters)")) :=
  C6_unknown_key_set_fails noBackends (rcDefault noBackends) "plot.backend_kwargs" PyVal.none rfl

/-- C7: `__delitem__`, `clear`, `pop`, `popitem` and `setdefault` fail
unconditionally with a `TypeError` and return the registry with all stored
entries unchanged. -/
theorem C7_destructive_ops_fail (s : RcParams) (key : String) (default : PyVal) :
    RcParams.delItem s key = (s, some (.typeError "RcParams keys cannot be deleted"))
    ∧ RcParams.clearAll s = (s, some (.typeError "RcParams keys cannot be deleted"))
    ∧ RcParams.pop s key default
      = (s, some (.typeError "RcParams keys cannot be deleted. Use .get(key) of RcParams[key] to check values"))
    ∧ RcParams.popitem s
      = (s, some (.typeError "RcParams keys cannot be deleted. Use .get(key) of RcParams[key] to check values"))
    ∧ RcParams.setdefault s key default
      = (s, some (.typeError "Defaults in RcParams are handled on object initialization during libraryimport. Use arvizrc file instead.")) :=
  ⟨rfl, rfl, rfl, rfl, rfl⟩

/-- C9: `__enter__` mutates nothing and returns the context object itself,
while merely CONSTRUCTING the context already mutates the shared registry:
initialising with `rc={"plot.max_subplots": None}` leaves the shared registry
holding `None` before `__enter__` is ever called. -/
theorem C9_init_mutates_enter_does_not :
    (∀ (ctx : RcContext) (s : RcParams), rcContextEnter ctx s = (ctx, s))
    ∧ rcContextInit noBackends ⟨[("plot.max_subplots", PyVal.int 40)]⟩
        (some [("plot.max_subplots", PyVal.none)]) Option.none
      = .ok (⟨[("plot.max_subplots", PyVal.int 40)]⟩, ⟨[("plot.max_subplots", PyVal.none)]⟩) :=
  ⟨fun _ _ => rfl, rfl⟩

/-- C10: the validator table is a single schema-derived table shared by every
registry instance, so ANY registry value — whatever keys it currently holds —
accepts a set for any schema key: `__setitem__` succeeds whenever the shared
table validates the value. -/
theorem C10_shared_validate (avail : BackendAvail) (s : RcParams) (key : String)
    (val cv : PyVal) (f : PyVal → Except PyErr PyVal)
    (hf : RcParams.validate avail key = some f) (hv : f val = .ok cv) :
    RcParams.setItem avail s key val = (⟨dictInsert s.storage key cv⟩, Option.none) := by
  simp [RcParams.setItem, hf, hv]

/-- C10 witness: the sub-registry `find_all("plot")` of the default registry
does not contain `"stats.ci_prob"`, yet setting `"stats.ci_prob"` on it
succeeds. -/
theorem C10_shared_validate_witness :
    (RcParams.find_all noBackends (rcDefault noBackends) "plot").1.lookup "stats.ci_prob"
        = Option.none
    ∧ RcParams.setItem noBackends (RcParams.find_all noBackends (rcDefault noBackends) "plot").1
        "stats.ci_prob" (PyVal.str "0.5")
      = (⟨dictInsert (RcParams.find_all noBackends (rcDefault noBackends) "plot").1.storage
            "stats.ci_prob" (PyVal.float (mkRat 1 2))⟩, Option.none) :=
  ⟨rfl, C10_shared_validate noBackends
    (RcParams.find_all noBackends (rcDefault noBackends) "plot").1 "stats.ci_prob"
    (PyVal.str "0.5") (PyVal.float (mkRat 1 2)) _validate_probability rfl rfl⟩

/-- C5: whatever state `s1` the guarded block (and the overrides) left the
shared registry in — including when the block raised, since `__exit__` runs
unconditionally — exiting a context whose snapshot was taken on a canonical
registry `s0` (every stored value is a fixpoint of its validator, as every
reachable registry state is) restores every key to its snapshotted value, and
the restoring bulk update itself raises nothing. -/
theorem C5_exit_restores (avail : BackendAvail) (s0 s1 : RcParams)
    (hcan : ∀ kv ∈ s0.storage, ∃ f, RcParams.validate avail kv.1 = some f ∧ f kv.2 = .ok kv.2)
    (hnd : (s0.storage.map Prod.fst).Nodup)
    (hdom : ∀ k, (s1.lookup k).isSome → (s0.lookup k).isSome) :
    (rcContextExit avail ⟨RcParams.copy s0⟩ s1).2 = Option.none
    ∧ ∀ k, (rcContextExit avail ⟨RcParams.copy s0⟩ s1).1.lookup k = s0.lookup k := by
  obtain ⟨h1, h2⟩ := updatePairs_spec avail s0.storage s1 hcan
  refine ⟨h1, fun k => ?_⟩
  show (RcParams.updatePairs avail s1 s0.storage).1.lookup k = s0.lookup k
  rw [h2 k, lastValP_eq_lookupPairs s0.storage k hnd]
  cases hl : lookupPairs s0.storage k with
  | some v => simp [optOr, RcParams.lookup, hl]
  | none =>
    have hs1 : s1.lookup k = Option.none := by
      cases hs : s1.lookup k with
      | none => rfl
      | some v =>
        have := hdom k (by simp [hs])
        rw [RcParams.lookup, hl] at this
        simp at this
    rw [RcParams.lookup] at hs1
    simp [optOr, RcParams.lookup, hl, hs1]

/-- C5 witness: on a registry holding `plot.max_subplots = 40`, a context
built with `rc={"plot.max_subplots": None}` stores `None` in the shared
registry (checked before exit), and `__exit__` restores the prior numeric
value `40`. -/
theorem C5_exit_restores_witness :
    (rcContextInit noBackends ⟨[("plot.max_subplots", PyVal.int 40)]⟩
        (some [("plot.max_subplots", PyVal.none)]) Option.none).map
        (fun p => p.2.lookup "plot.max_subplots") = .ok (some PyVal.none)
    ∧ (rcContextExit noBackends ⟨RcParams.copy ⟨[("plot.max_subplots", PyVal.int 40)]⟩⟩
        ⟨[("plot.max_subplots", PyVal.none)]⟩).1.lookup "plot.max_subplots"
      = RcParams.lookup ⟨[("plot.max_subplots", PyVal.int 40)]⟩ "plot.max_subplots"
    ∧ RcParams.lookup ⟨[("plot.max_subplots", PyVal.int 40)]⟩ "plot.max_subplots"
      = some (PyVal.int 40) := by
  refine ⟨rfl, ?_, rfl⟩
  refine (C5_exit_restores noBackends ⟨[("plot.max_subplots", PyVal.int 40)]⟩
    ⟨[("plot.max_subplots", PyVal.none)]⟩ ?_ ?_ ?_).2 "plot.max_subplots"
  · intro kv h
    simp only [List.mem_singleton] at h
    subst h
    exact ⟨_validate_positive_int_or_none, rfl, rfl⟩
  · simp
  · intro k h
    by_cases hk : ("plot.max_subplots" : String) = k
    · simp [RcParams.lookup, lookupPairs, hk]
    · simp [RcParams.lookup, lookupPairs, hk] at h

/-- C8: on every successful load, (1) the resulting registry binds exactly the
keys occurring on well-formed lines of the file — no defaults are filled in;
(2) each bound key holds the validator's output on the raw value of its LAST
occurrence; (3) one duplicate-key warning is logged for each repeated
occurrence of a key. -/
theorem C8_file_registry (avail : BackendAvail) (fname contents : String)
    (config : RcParams) (warns : List LogMsg)
    (h : read_rcfile avail fname contents = .ok (config, warns)) :
    (∀ k, (config.lookup k).isSome
        ↔ (lastRawP (parsedPairs (splitChar '\n' contents)) k).isSome)
    ∧ (∀ k raw, lastRawP (parsedPairs (splitChar '\n' contents)) k = some raw →
        ∃ f cv, RcParams.validate avail k = some f ∧ f (.str raw) = .ok cv ∧
          config.lookup k = some cv)
    ∧ warns.countP isDupMsg = dupCount [] (parsedPairs (splitChar '\n' contents)) := by
  obtain ⟨h1, h2, h3⟩ :=
    readLines_ok_spec avail fname (splitChar '\n' contents) 1 ⟨[]⟩ [] config warns h
  refine ⟨?_, h2, by simpa using h3⟩
  intro k
  constructor
  · intro hk
    cases hl : lastRawP (parsedPairs (splitChar '\n' contents)) k with
    | some r => simp
    | none =>
      rw [h1 k hl] at hk
      simp [RcParams.lookup, lookupPairs] at hk
  · intro hk
    cases hl : lastRawP (parsedPairs (splitChar '\n' contents)) k with
    | none => rw [hl] at hk; simp at hk
    | some r =>
      obtain ⟨f, cv, _, _, hcfg⟩ := h2 k r hl
      simp [hcfg]

/-- C8 witness: the spec's own example file
`"stats.ci_prob: 0.5\nstats.ci_prob: 0.9\n"` — the load succeeds, stores the
last value `0.9`, and logs exactly the one duplicate-key warning the
duplicate count prescribes. -/
theorem C8_file_registry_witness :
    List.countP isDupMsg [LogMsg.duplicate "arvizrc" 2]
      = dupCount []
          (parsedPairs (splitChar '\n' "stats.ci_prob: 0.5\nstats.ci_prob: 0.9\n")) :=
  (C8_file_registry noBackends "arvizrc" "stats.ci_prob: 0.5\nstats.ci_prob: 0.9\n"
    ⟨[("stats.ci_prob", PyVal.float (mkRat 9 10))]⟩ [LogMsg.duplicate "arvizrc" 2] rfl).2.2
